import Mathlib

/-!
Shallow embedding of `src/streamlit.py` (shelter-pet adoption-risk dashboard).

Scores and SHAP values are modelled as rationals; a pandas cell that can be
absent or NaN is modelled with `Option` / `CellVal`; the HTML detail panel is
modelled as the structured data the format strings interpolate.
-/

namespace PetAdoption

/-- A pandas cell: the column can be missing from the row, hold NaN, or a value.
`pet_data.get(key, default)` yields `default` on `missing` and NaN on `nan`. -/
inductive CellVal (α : Type) where
  | missing
  | nan
  | val (a : α)
deriving DecidableEq

/-- One ranked attribution slot `{prefix}{i}` / `{prefix}{i}_Value` /
`{prefix}{i}_Relative_Diff` of a row. `name = none` models a missing key or a
NaN cell (both skipped by the loop); `relDiff = none` models a missing
`_Relative_Diff` key, which `pet_data.get(..., 0)` defaults to `0`. -/
structure AttrSlot where
  name : Option String
  value : String
  relDiff : Option ℚ
deriving DecidableEq

/-- One row of the prediction dataframe loaded from S3. -/
structure Row where
  animalID : Int
  animal_type : Option String
  predicted_score : ℚ
  predicted_label : Int
  predicted_label_name : CellVal String
  pos1 : AttrSlot
  pos2 : AttrSlot
  pos3 : AttrSlot
  neg1 : AttrSlot
  neg2 : AttrSlot
  neg3 : AttrSlot
deriving DecidableEq

/-- `EMOJI_MAP` from the source. -/
def EMOJI_MAP : List (String × String) :=
  [("Breed", "🐕"), ("Age", "🎂"), ("Intake Type", "🏷️"),
   ("Sex", "🚻"), ("Has Name", "📛"), ("Color", "🎨"),
   ("Num Returned", "↩️"), ("Intake Condition", "🩺"),
   ("Stay Length Days", "🗓️")]

/-- `EMOJI_MAP.get(clean_factor_name, '❓')`. -/
def emojiFor (nm : String) : String :=
  match EMOJI_MAP.find? (fun p => p.1 == nm) with
  | some p => p.2
  | none => "❓"

/-- `'SHAP-'` removal on the character list: replaces every (non-overlapping,
leftmost-first) occurrence of `SHAP-` with nothing, as Python `str.replace`. -/
def stripSHAP : List Char → List Char
  | 'S' :: 'H' :: 'A' :: 'P' :: '-' :: rest => stripSHAP rest
  | c :: rest => c :: stripSHAP rest
  | [] => []

/-- Drop leading whitespace characters. -/
def dropLeadingWS : List Char → List Char
  | [] => []
  | c :: cs => if c.isWhitespace then dropLeadingWS cs else c :: cs

/-- Python `str.strip()`: drop whitespace at both ends. -/
def stripChars (l : List Char) : List Char :=
  (dropLeadingWS (dropLeadingWS l).reverse).reverse

/-- `factor_name.replace('SHAP-', '').strip()`. -/
def cleanName (nm : String) : String := ⟨stripChars (stripSHAP nm.data)⟩

/-- Python `int()` applied to the nonnegative quantity `abs(raw_shap) * 100`:
truncation toward zero, which on nonnegative arguments is the floor. -/
def pyInt (q : ℚ) : ℤ := ⌊q⌋

/-- `int(abs(raw_shap) * 100)` (line 88 of the source). -/
def magnitudeOf (raw : ℚ) : ℤ := pyInt (|raw| * 100)

/-- `"less" if raw_shap < 0 else "more"` (line 87 of the source). -/
def directionOf (raw : ℚ) : String := if raw < 0 then "less" else "more"

/-- `pet_data.get(f'..._Relative_Diff', 0)`: a missing key defaults to 0. -/
def slotRelDiff (s : AttrSlot) : ℚ := s.relDiff.getD 0

/-- `statistic_string = f"{factor_value}{unit} are {formatted_shap} {more_or_less} likely to be adopted."`
with `unit = " years" if factor_name == "Age" else ""` (lines 89-90). -/
def statisticOf (s : AttrSlot) (nm : String) : String :=
  s.value ++ ((if nm = "Age" then " years" else "") ++ (" are " ++
    (toString (magnitudeOf (slotRelDiff s)) ++ ("% " ++
    (directionOf (slotRelDiff s) ++ " likely to be adopted.")))))

/-- One rendered factor block of the "Top Factors Affecting Score" panel. -/
structure Factor where
  emoji : String
  clean_factor_name : String
  statistic_string : String
deriving DecidableEq

/-- The loop guard `if not factor_name or pd.isna(factor_name): continue`:
an entry survives iff its name is a present, non-NaN, nonempty string. -/
def validName : Option String → Bool
  | none => false
  | some s => s != ""

/-- The body of one iteration of the factors loop (lines 80-96): `none` when
the entry is skipped by the guard. -/
def renderFactor (s : AttrSlot) : Option Factor :=
  match s.name with
  | none => none
  | some nm =>
    if nm = "" then none
    else
      some ⟨emojiFor (cleanName nm), cleanName nm, statisticOf s nm⟩

/-- Total version of the factor rendering, used to characterise the loop. -/
def mkFactor (s : AttrSlot) : Factor :=
  ⟨emojiFor (cleanName (s.name.getD "")), cleanName (s.name.getD ""),
   statisticOf s (s.name.getD "")⟩

/-- `if predicted_label == 1: feature_prefix = "Positive_Feature_" else "Negative_Feature_"`. -/
def featurePrefixIsPositive (label : Int) : Bool := label == 1

/-- The three slots the factors loop iterates over for a row. -/
def slotsOf (r : Row) : List AttrSlot :=
  if featurePrefixIsPositive r.predicted_label then [r.pos1, r.pos2, r.pos3]
  else [r.neg1, r.neg2, r.neg3]

/-- The list of factor blocks the loop appends into `factors_html`. -/
def factorsOf (r : Row) : List Factor := (slotsOf r).filterMap renderFactor

/-- `recommended_team = pet_data.get('predicted_label_name', 'N/A')` followed by
the `pd.notna` test: a missing key yields the string sentinel `'N/A'` (which is
not NaN), a NaN cell yields `none`. -/
def getTeamCell : CellVal String → Option String
  | CellVal.missing => some "N/A"
  | CellVal.nan => none
  | CellVal.val s => some s

/-- The markup of the recommended-team section, interpolating the team name
(lines 100-110 of the source, markup condensed). -/
def teamSectionHtml (t : String) : String :=
  "<div class=\"team-section\"><div class=\"team-header\"><h3>" ++ t ++
    "</h3><div class=\"team-title\">Predicted Outcome</div></div></div>"

/-- `team_html_module`: stays `\"\"` (omitted) unless `pd.notna(recommended_team)`. -/
def team_html_module (r : Row) : String :=
  match getTeamCell r.predicted_label_name with
  | none => ""
  | some t => teamSectionHtml t

/-- The detail-panel categorizer (lines 112-114): `score < 25` High,
`score < 50` Medium, else Low. -/
def detailRiskCategory (score : ℚ) : String :=
  if score < 25 then "High Risk"
  else if score < 50 then "Medium Risk"
  else "Low Risk"

/-- The detail-panel progress color picked together with `risk_category`. -/
def detailProgressColor (score : ℚ) : String :=
  if score < 25 then "bg-red-500"
  else if score < 50 then "bg-yellow-500"
  else "bg-green-500"

/-- The data `generate_full_dashboard_html` interpolates into its markup. -/
structure DashboardView where
  pet_id : Int
  score : ℚ
  factors : List Factor
  team_html : String
  progress_color : String
  risk_category : String
deriving DecidableEq

/-- `generate_full_dashboard_html` (lines 58-159), as the structured data the
returned markup interpolates. -/
def generate_full_dashboard_html (r : Row) : DashboardView :=
  ⟨r.animalID, r.predicted_score, factorsOf r, team_html_module r,
   detailProgressColor r.predicted_score, detailRiskCategory r.predicted_score⟩

/-- `color_score` (lines 161-168): the table-cell style for a score. -/
def color_score (val : ℚ) : String :=
  if val < 25 then "background-color: #FF6B6B; color: white"
  else if val < 50 then "background-color: #FFD166"
  else "background-color: #06D6A0; color: white"

/-- `get_adoptability_category` (lines 199-202): the summary-chart categorizer. -/
def get_adoptability_category (score : ℚ) : String :=
  if score ≤ 33 then "High Risk"
  else if score ≤ 66 then "Medium Risk"
  else "Low Risk"

/-- Risk level of a category label: High is the highest risk. -/
def riskRank (c : String) : ℕ :=
  if c = "High Risk" then 2 else if c = "Medium Risk" then 1 else 0

/-- `filtered_df['Animal_Type'].isin(selected_animal_types)` for one row;
a NaN `Animal_Type` is never a member. -/
def isinAnimal (sel : List String) (r : Row) : Bool :=
  match r.animal_type with
  | some t => sel.contains t
  | none => false

/-- Lines 195-196: `if selected_animal_types: filtered_df = filtered_df[...isin(...)]`.
An empty (falsy) selection skips the filter entirely. -/
def filterByAnimalType (sel : List String) (rows : List Row) : List Row :=
  if sel.isEmpty then rows else rows.filter (isinAnimal sel)

/-- The raw data behind the "Distribution of Adoption Scores" histogram:
the `predicted_score` column of the filtered frame. -/
def summaryHistogramInput (rows : List Row) : List ℚ := rows.map (·.predicted_score)

/-- The ndarray produced by `np.where(sorted_df['predicted_label'] == 0,
sorted_df['Negative_Feature_1'], sorted_df['Positive_Feature_1'])`
(lines 252-256): elementwise group selection; this stage succeeds. -/
def npWhereFeature (rows : List Row) : List (Option String) :=
  rows.map (fun r => if r.predicted_label == 0 then r.neg1.name else r.pos1.name)

/-- The exception text of the `.str` attribute lookup on a numpy array. -/
def ndarrayStrError : String :=
  "AttributeError: 'numpy.ndarray' object has no attribute 'str'"

/-- The `.str` accessor chained onto `np.where(...)`: `np.where` returns a
`numpy.ndarray`, and `.str` exists only on pandas `Series`, so the attribute
lookup raises unconditionally, whatever the array holds (even empty); the
`.replace('SHAP-', '')`/`.strip()` cleaning never executes. -/
def ndarrayStrAccessor (_arr : List (Option String)) :
    Except String (List (Option String)) :=
  Except.error ndarrayStrError

/-- Line 252 as a whole: the right-hand side of the `Primary_Concern` column
assignment, which raises before the column is ever assigned. -/
def primaryConcernColumn (rows : List Row) : Except String (List (Option String)) :=
  ndarrayStrAccessor (npWhereFeature rows)

/-- The comparison key of `sort_values(by="predicted_score", ascending=True)`. -/
def scoreLE (a b : Row) : Prop := a.predicted_score ≤ b.predicted_score

instance : DecidableRel scoreLE :=
  fun a b => inferInstanceAs (Decidable (a.predicted_score ≤ b.predicted_score))

instance : IsTotal Row scoreLE :=
  ⟨fun a b => le_total a.predicted_score b.predicted_score⟩

instance : IsTrans Row scoreLE :=
  ⟨fun _ _ _ h1 h2 => le_trans h1 h2⟩

/-- `sorted_df = filtered_df.sort_values(by="predicted_score", ascending=True)`. -/
def sortedRows (rows : List Row) : List Row := List.insertionSort scoreLE rows

/-- One row of `df_display`: `{Pet ID, Score, Primary_Concern}`. -/
structure TriageEntry where
  petId : Int
  score : ℚ
  primary_concern : Option String
deriving DecidableEq

/-- Building `df_display` from the (already filtered) snapshot, lines 238 and
252-262: the sort at line 238 succeeds, then the `Primary_Concern` assignment
at line 252 raises, so the triage table is never produced; the `ok` arm below
records what the zip/projection would yield had the accessor existed, but it is
unreachable. -/
def triageBuild (rows : List Row) : Except String (List TriageEntry) :=
  (primaryConcernColumn (sortedRows rows)).map (fun col =>
    ((sortedRows rows).zip col).map (fun p =>
      ⟨p.1.animalID, p.1.predicted_score, p.2⟩))

/-- What the Pet Details column shows. -/
inductive DetailPanel where
  | placeholderNoSelection
  | notFoundInfo
  | detail (view : DashboardView)
deriving DecidableEq

/-- The Pet Details branch (lines 291-303): returns the session selection after
the branch runs together with the rendered panel. `selected_pet_id` is tested
for Python truthiness (`None` and `0` are falsy); a selected id absent from the
filtered rows shows the "Selected pet not found in filtered data." info box and
leaves the session selection untouched. -/
def petDetails (selId : Option Int) (rows : List Row) : Option Int × DetailPanel :=
  match selId with
  | none => (selId, DetailPanel.placeholderNoSelection)
  | some i =>
    if i = 0 then (selId, DetailPanel.placeholderNoSelection)
    else
      match rows.filter (fun r => r.animalID == i) with
      | [] => (selId, DetailPanel.notFoundInfo)
      | r :: _ => (selId, DetailPanel.detail (generate_full_dashboard_html r))

/-- `load_data_from_s3` (lines 24-36): any fetch/parse failure is caught, an
`st.error` message is emitted, and `None` is returned. -/
def load_data_from_s3 (fetch : Except String (List Row)) :
    Option (List Row) × List String :=
  match fetch with
  | Except.ok rows => (some rows, [])
  | Except.error e => (none, ["Error loading data from S3: " ++ e])

/-- The page body: a completed dashboard (never reached, see `triageBuild`),
the partial render that stops at the line-252 exception — the summary charts
over the filtered frame are already emitted, then the uncaught error is shown —
or the disabled state after a failed load. -/
inductive AppBody where
  | dashboard (triage : List TriageEntry) (hist : List ℚ)
  | crashed (hist : List ℚ) (exc : String)
  | unavailable
deriving DecidableEq

/-- The messages and body a run of the script produces. -/
structure RenderOutput where
  messages : List String
  body : AppBody
deriving DecidableEq

/-- The `if df is not None: ... else: st.warning(...)` skeleton of the script
(lines 176-306), restricted to the load outcome, the animal-type filter, the
summary charts and the triage-table construction: on a successful load the
charts are emitted from the filtered frame (lines 207-234) and then line 252
raises, so the run ends in the `crashed` body; on a failed load the `st.error`
and `st.warning` messages are emitted and the body is the disabled state. -/
def appRender (fetch : Except String (List Row)) (sel : List String) : RenderOutput :=
  match load_data_from_s3 fetch with
  | (some rows, msgs) =>
    let f := filterByAnimalType sel rows
    match triageBuild f with
    | Except.ok t => ⟨msgs, AppBody.dashboard t (summaryHistogramInput f)⟩
    | Except.error e => ⟨msgs, AppBody.crashed (summaryHistogramInput f) e⟩
  | (none, msgs) =>
    ⟨msgs ++ ["Data could not be loaded. Please check S3 configuration and credentials."],
     AppBody.unavailable⟩

/-- Modelled from the spec: `round(abs(relative_effect) * 100)`, the magnitude
the spec prescribes (round-half-up; the counterexample below involves no tie,
so every standard rounding convention agrees there). The source instead applies
Python `int`, i.e. truncation. -/
def specRoundMagnitude (raw : ℚ) : ℤ := round (|raw| * 100)

/-- Modelled from the spec: a row is "flagged at-risk" when the label indicates
non-adoption or the risk signal is below the risk threshold (50, the medium
cutoff of the detail panel, on the 0-100 score scale). The source has no such
predicate: the team panel condition tests only `pd.notna(recommended_team)`. -/
def specAtRisk (r : Row) : Bool :=
  (r.predicted_label != 1) || decide (r.predicted_score < 50)

/-- Substring test on the character lists: does the second argument start with
the first? -/
def startsWithChars : List Char → List Char → Bool
  | [], _ => true
  | _ :: _, [] => false
  | c :: cs, d :: ds => c == d && startsWithChars cs ds

/-- Does the second list contain the first as a contiguous sublist? -/
def containsChars (needle : List Char) : List Char → Bool
  | [] => startsWithChars needle []
  | c :: cs => startsWithChars needle (c :: cs) || containsChars needle cs

/-- `needle in hay` on strings. -/
def strContains (hay needle : String) : Bool :=
  containsChars needle.data hay.data

/-- An attribution slot that is entirely absent from the row. -/
def blankSlot : AttrSlot := ⟨none, "", none⟩

/-- A sample dog row (not adopted, low score). -/
def dogRow : Row :=
  ⟨1, some "Dog", 10, 0, CellVal.val "Foster Coordinator",
   ⟨some "SHAP-Breed", "Husky", some (42/100)⟩, blankSlot, blankSlot,
   ⟨some "SHAP-Age", "3", some (-42/100)⟩, ⟨some "Has Name", "No", some (7/10)⟩, blankSlot⟩

/-- A sample cat row (adopted, high score). -/
def catRow : Row :=
  ⟨2, some "Cat", 90, 1, CellVal.nan,
   ⟨some "SHAP-Breed", "Tabby", some (7/10)⟩, blankSlot, blankSlot,
   blankSlot, blankSlot, blankSlot⟩

/-- A row that is not at risk by any reading (adopted label, score 90) yet
carries a team name. -/
def adoptedTeamRow : Row :=
  ⟨3, some "Dog", 90, 1, CellVal.val "Community Outreach",
   ⟨some "SHAP-Breed", "Poodle", some (1/10)⟩, blankSlot, blankSlot,
   blankSlot, blankSlot, blankSlot⟩

/-- A row whose `predicted_label_name` column is missing entirely. -/
def missingTeamRow : Row :=
  ⟨5, some "Cat", 60, 0, CellVal.missing,
   blankSlot, blankSlot, blankSlot,
   ⟨some "Color", "Black", some (-1/10)⟩, blankSlot, blankSlot⟩

/-- A slot with `relative_effect = -0.42`. -/
def slotNeg42 : AttrSlot := ⟨some "Age", "3", some (-42/100)⟩

/-- A slot with `relative_effect = 0.7`. -/
def slot07 : AttrSlot := ⟨some "Breed", "Tabby", some (7/10)⟩

/-- A slot with `relative_effect = 0.299`, where truncation and rounding differ. -/
def slot0299 : AttrSlot := ⟨some "Breed", "Husky", some (299/1000)⟩

/-- A slot whose name is valid but whose `_Relative_Diff` key is missing. -/
def slotMissingDiff : AttrSlot := ⟨some "Has Name", "No", none⟩

section Helpers

/-- The loop body renders a slot iff its name passes the guard. -/
theorem renderFactor_eq (s : AttrSlot) :
    renderFactor s = if validName s.name then some (mkFactor s) else none := by
  cases h : s.name with
  | none => simp [renderFactor, validName, h]
  | some nm =>
    by_cases he : nm = "" <;>
      simp [renderFactor, validName, mkFactor, h, he]

/-- `filterMap` over the loop body keeps exactly the guard-passing slots, in
order, each rendered by `mkFactor`. -/
theorem filterMap_renderFactor (l : List AttrSlot) :
    l.filterMap renderFactor =
      (l.filter (fun s => validName s.name)).map mkFactor := by
  induction l with
  | nil => rfl
  | cons s t ih =>
    by_cases h : validName s.name = true <;>
      simp [List.filterMap_cons, List.filter_cons, renderFactor_eq, h, ih]

/-- A substring of the tail is a substring of the whole. -/
theorem containsChars_append (n h2 h1 : List Char)
    (h : containsChars n h2 = true) : containsChars n (h1 ++ h2) = true := by
  induction h1 with
  | nil => simpa using h
  | cons c cs ih => simp [containsChars, ih]

/-- A substring of the right summand is a substring of the appended string. -/
theorem strContains_append_right (a b n : String)
    (h : strContains b n = true) : strContains (a ++ b) n = true := by
  unfold strContains at h ⊢
  rw [String.data_append]
  exact containsChars_append _ _ _ h

/-- The team section markup is never the empty string. -/
theorem teamSectionHtml_ne (t : String) : teamSectionHtml t ≠ "" := by
  intro h
  have hd := congrArg String.data h
  rw [teamSectionHtml, String.data_append, String.data_append] at hd
  have h1 : ("<div class=\"team-section\"><div class=\"team-header\"><h3>" : String).data ≠ [] := by
    decide
  exact h1 (List.append_eq_nil.mp (List.append_eq_nil.mp hd).1).1

theorem magnitudeOf_neg42 : magnitudeOf (-42/100) = 42 := by
  unfold magnitudeOf pyInt
  rw [show |(-42 : ℚ)/100| * 100 = ((42 : ℤ) : ℚ) by
    rw [abs_of_nonpos] <;> norm_num]
  exact Int.floor_intCast 42

theorem magnitudeOf_07 : magnitudeOf (7/10) = 70 := by
  unfold magnitudeOf pyInt
  rw [show |(7 : ℚ)/10| * 100 = ((70 : ℤ) : ℚ) by
    rw [abs_of_nonneg] <;> norm_num]
  exact Int.floor_intCast 70

theorem magnitudeOf_0299 : magnitudeOf (299/1000) = 29 := by
  unfold magnitudeOf pyInt
  rw [show |(299 : ℚ)/1000| * 100 = 299/10 by
    rw [abs_of_nonneg] <;> norm_num]
  rw [Int.floor_eq_iff]
  norm_num

theorem specRoundMagnitude_0299 : specRoundMagnitude (299/1000) = 30 := by
  unfold specRoundMagnitude
  rw [show |(299 : ℚ)/1000| * 100 = 299/10 by
    rw [abs_of_nonneg] <;> norm_num]
  rw [round_eq, Int.floor_eq_iff]
  norm_num

theorem magnitudeOf_zero : magnitudeOf 0 = 0 := by
  unfold magnitudeOf pyInt
  rw [show |(0 : ℚ)| * 100 = ((0 : ℤ) : ℚ) by norm_num]
  exact Int.floor_intCast 0

theorem directionOf_nonneg (raw : ℚ) (h : 0 ≤ raw) : directionOf raw = "more" := by
  unfold directionOf
  rw [if_neg (not_lt.mpr h)]

theorem directionOf_neg (raw : ℚ) (h : raw < 0) : directionOf raw = "less" := by
  unfold directionOf
  rw [if_pos h]

end Helpers

/-- C1, counterexample: the claim says an empty selected animal-type set yields
an empty triage list ("it never falls back to showing all rows"), but the
source guards the filter with `if selected_animal_types:`, so the empty (falsy)
selection skips the filter and every row is kept. -/
theorem C1_counterexample :
    filterByAnimalType [] [dogRow] = [dogRow] ∧
    filterByAnimalType [] [dogRow] ≠ [] ∧
    summaryHistogramInput (filterByAnimalType [] [dogRow]) = [(10 : ℚ)] := by
  exact ⟨rfl, List.cons_ne_nil dogRow [], rfl⟩

/-- C1, amended: when the selected animal-type set is nonempty, the filter
keeps exactly the rows whose `Animal_Type` is in the set, and a nonempty
selection that excludes every row yields an empty filtered frame and an empty
summary-histogram input without error (the charts are emitted before line 252);
when the selected set is empty the filter is skipped and all rows are kept.
The triage list itself is never produced on any run: for every filtered frame,
building `df_display` raises the line-252 AttributeError first. -/
theorem C1_thm (sel : List String) (rows : List Row) :
    (sel = [] → filterByAnimalType sel rows = rows) ∧
    (sel ≠ [] →
      ∀ r : Row, r ∈ filterByAnimalType sel rows ↔ r ∈ rows ∧ isinAnimal sel r = true) ∧
    (sel ≠ [] → (∀ r ∈ rows, isinAnimal sel r = false) →
      filterByAnimalType sel rows = [] ∧
      summaryHistogramInput (filterByAnimalType sel rows) = []) ∧
    triageBuild (filterByAnimalType sel rows) = Except.error ndarrayStrError := by
  refine ⟨fun h => by simp [filterByAnimalType, h], fun h r => ?_, fun h hall => ?_, rfl⟩
  · rw [filterByAnimalType, if_neg (by simpa [List.isEmpty_iff] using h)]
    simp [List.mem_filter]
  · have hnil : filterByAnimalType sel rows = [] := by
      rw [filterByAnimalType, if_neg (by simpa [List.isEmpty_iff] using h)]
      rw [List.filter_eq_nil_iff]
      intro a ha
      simp [hall a ha]
    exact ⟨hnil, by rw [hnil]; rfl⟩

/-- C1, witness: a nonempty selection (`["Bird"]`) that excludes both sample
rows produces an empty filtered frame and empty histogram input. -/
theorem C1_witness :
    filterByAnimalType ["Bird"] [dogRow, catRow] = [] ∧
    summaryHistogramInput (filterByAnimalType ["Bird"] [dogRow, catRow]) = [] :=
  (C1_thm ["Bird"] [dogRow, catRow]).2.2.1 (by simp) (by decide)

/-- C2, counterexample: the claim says the displayed magnitude is
`round(abs(relative_effect) * 100)`, but the source computes
`int(abs(raw_shap) * 100)`, i.e. truncation. At `relative_effect = 0.299` the
code displays `29%` while the claimed rounding gives `30`, so the sentence
contains "29%" and not "30%". -/
theorem C2_counterexample :
    magnitudeOf (slotRelDiff slot0299) = 29 ∧
    specRoundMagnitude (slotRelDiff slot0299) = 30 ∧
    strContains (statisticOf slot0299 "Breed") "29%" = true ∧
    strContains (statisticOf slot0299 "Breed") "30%" = false := by
  have h1 : slotRelDiff slot0299 = 299/1000 := rfl
  refine ⟨by rw [h1, magnitudeOf_0299], by rw [h1, specRoundMagnitude_0299], ?_, ?_⟩ <;>
  · unfold statisticOf
    rw [h1, magnitudeOf_0299, directionOf_nonneg _ (by norm_num)]
    decide

/-- C2, amended: for every attribution entry the Explanation Formatter
renders, the displayed magnitude is `int(abs(relative_effect) * 100)`
(truncation toward zero, not rounding) and the direction word is "more" when
`relative_effect >= 0` and "less" otherwise; concretely, for
`relative_effect = -0.42` the sentence contains "42%" and "less likely", and
for `relative_effect = 0.7` it contains "70%" and "more likely". -/
theorem C2_thm (s : AttrSlot) (nm : String) :
    statisticOf s nm =
      s.value ++ ((if nm = "Age" then " years" else "") ++ (" are " ++
        (toString (pyInt (|slotRelDiff s| * 100)) ++ ("% " ++
        ((if slotRelDiff s < 0 then "less" else "more") ++
          " likely to be adopted."))))) ∧
    (slotRelDiff s = -42/100 →
      strContains (statisticOf s nm) "42%" = true ∧
      strContains (statisticOf s nm) "less likely" = true) ∧
    (slotRelDiff s = 7/10 →
      strContains (statisticOf s nm) "70%" = true ∧
      strContains (statisticOf s nm) "more likely" = true) := by
  refine ⟨rfl, fun h => ?_, fun h => ?_⟩
  · unfold statisticOf
    rw [h, magnitudeOf_neg42, directionOf_neg _ (by norm_num)]
    constructor <;>
    · apply strContains_append_right
      apply strContains_append_right
      decide
  · unfold statisticOf
    rw [h, magnitudeOf_07, directionOf_nonneg _ (by norm_num)]
    constructor <;>
    · apply strContains_append_right
      apply strContains_append_right
      decide

/-- C2, witness: the two concrete slots of the claim, with the hypotheses on
`relative_effect` discharged. -/
theorem C2_witness :
    strContains (statisticOf slotNeg42 "Age") "42%" = true ∧
    strContains (statisticOf slotNeg42 "Age") "less likely" = true ∧
    strContains (statisticOf slot07 "Breed") "70%" = true ∧
    strContains (statisticOf slot07 "Breed") "more likely" = true :=
  ⟨((C2_thm slotNeg42 "Age").2.1 rfl).1, ((C2_thm slotNeg42 "Age").2.1 rfl).2,
   ((C2_thm slot07 "Breed").2.2 rfl).1, ((C2_thm slot07 "Breed").2.2 rfl).2⟩

/-- C3: the Explanation Formatter uses the positive attribution group exactly
when `predicted_label == 1` and the negative group otherwise; the loop emits at
most 3 entries, keeps the original rank order 1..3, skips exactly the entries
whose feature name is missing/NaN/blank, and yields the empty sequence (no
error) when no valid entry remains. -/
theorem C3_thm (r : Row) :
    (r.predicted_label = 1 → factorsOf r = [r.pos1, r.pos2, r.pos3].filterMap renderFactor) ∧
    (r.predicted_label ≠ 1 → factorsOf r = [r.neg1, r.neg2, r.neg3].filterMap renderFactor) ∧
    (factorsOf r).length ≤ 3 ∧
    factorsOf r = ((slotsOf r).filter (fun s => validName s.name)).map mkFactor ∧
    (∀ s : AttrSlot, (renderFactor s).isSome = validName s.name) ∧
    ((∀ s ∈ slotsOf r, validName s.name = false) → factorsOf r = []) := by
  have hsome : ∀ s : AttrSlot, (renderFactor s).isSome = validName s.name := by
    intro s
    rw [renderFactor_eq]
    by_cases h : validName s.name = true <;> simp [h]
  refine ⟨fun h => ?_, fun h => ?_, ?_, filterMap_renderFactor _, hsome, fun h => ?_⟩
  · unfold factorsOf slotsOf featurePrefixIsPositive
    rw [h]
    rfl
  · unfold factorsOf slotsOf featurePrefixIsPositive
    rw [if_neg (by simpa using h)]
  · calc (factorsOf r).length ≤ (slotsOf r).length := List.length_filterMap_le _ _
      _ ≤ 3 := by unfold slotsOf; split <;> simp
  · unfold factorsOf
    rw [filterMap_renderFactor]
    rw [List.filter_eq_nil_iff.mpr (fun s hs => by simp [h s hs])]
    rfl

/-- C3, witness: `dogRow` has label 0, so the negative group is used; its three
negative slots hold two valid entries and one blank, so exactly two factors
come out, in rank order. -/
theorem C3_witness :
    factorsOf dogRow = [dogRow.neg1, dogRow.neg2, dogRow.neg3].filterMap renderFactor ∧
    (factorsOf dogRow).length ≤ 3 ∧
    ((∀ s ∈ slotsOf catRow, validName s.name = false) → factorsOf catRow = []) :=
  ⟨(C3_thm dogRow).2.1 (by decide), (C3_thm dogRow).2.2.1,
   (C3_thm catRow).2.2.2.2.2⟩

/-- C4: `get_adoptability_category` is total and exclusive — it returns exactly
one of the three distinct labels High/Medium/Low Risk — and monotone: a larger
score never gets a riskier category (High ≤ 33 < Medium ≤ 66 < Low). -/
theorem C4_thm :
    (∀ s : ℚ, get_adoptability_category s = "High Risk" ∨
      get_adoptability_category s = "Medium Risk" ∨
      get_adoptability_category s = "Low Risk") ∧
    (("High Risk" : String) ≠ "Medium Risk" ∧ ("High Risk" : String) ≠ "Low Risk" ∧
      ("Medium Risk" : String) ≠ "Low Risk") ∧
    (∀ s1 s2 : ℚ, s1 ≤ s2 →
      riskRank (get_adoptability_category s2) ≤ riskRank (get_adoptability_category s1)) := by
  refine ⟨fun s => ?_, by decide, fun s1 s2 h => ?_⟩
  · unfold get_adoptability_category
    split_ifs <;> simp
  · unfold get_adoptability_category
    split_ifs <;> first | decide | (exfalso; linarith)

/-- C4, witness: the summary categorizer at scores 10 and 50, with the
hypothesis `10 ≤ 50` discharged. -/
theorem C4_witness :
    (get_adoptability_category 50 = "High Risk" ∨
      get_adoptability_category 50 = "Medium Risk" ∨
      get_adoptability_category 50 = "Low Risk") ∧
    riskRank (get_adoptability_category 50) ≤ riskRank (get_adoptability_category 10) :=
  ⟨C4_thm.1 50, C4_thm.2.2 10 50 (by norm_num)⟩

/-- C5, counterexample: the claim says a selected id absent from the filtered
rows resets `selected_pet_id` to the "none selected" state, but the source only
shows the "Selected pet not found in filtered data." info box and leaves
`st.session_state.selected_pet_id` untouched: with id 5 selected and only
`dogRow` (id 1) in view, the selection stays `some 5`. -/
theorem C5_counterexample :
    (petDetails (some 5) [dogRow]).1 = some 5 ∧
    (petDetails (some 5) [dogRow]).1 ≠ none ∧
    (petDetails (some 5) [dogRow]).2 = DetailPanel.notFoundInfo :=
  ⟨rfl, by simp [petDetails, dogRow], rfl⟩

/-- C5, amended: whenever the currently selected (truthy) id is absent from the
post-filter row set, the detail branch leaves `FilterState.selected_id`
unchanged and the detail panel shows the "Selected pet not found in filtered
data." placeholder; this path never raises an error. -/
theorem C5_thm (i : Int) (rows : List Row) (hi : i ≠ 0)
    (habsent : ∀ r ∈ rows, r.animalID ≠ i) :
    petDetails (some i) rows = (some i, DetailPanel.notFoundInfo) := by
  simp only [petDetails]
  rw [if_neg hi]
  rw [List.filter_eq_nil_iff.mpr (fun r hr => by simp [habsent r hr])]

/-- C5, witness: id 5 selected, only row id 1 in the filtered view. -/
theorem C5_witness :
    petDetails (some 5) [dogRow] = (some 5, DetailPanel.notFoundInfo) :=
  C5_thm 5 [dogRow] (by norm_num) (by decide)

/-- C6, counterexample: the claim says the team panel is rendered only for
at-risk rows, but the source renders it whenever `pd.notna(recommended_team)`:
`adoptedTeamRow` (label 1 = adopted, score 90, so not at risk under any of the
spec's readings) still gets a nonempty team panel. -/
theorem C6_counterexample :
    specAtRisk adoptedTeamRow = false ∧
    (generate_full_dashboard_html adoptedTeamRow).team_html ≠ "" := by
  constructor
  · have h90 : ¬ ((90 : ℚ) < 50) := by norm_num
    unfold specAtRisk adoptedTeamRow
    simp [h90]
  · exact teamSectionHtml_ne "Community Outreach"

/-- C6, amended: the recommended-team panel is rendered in the detail view if
and only if the row's `predicted_label_name` cell is not NaN — independent of
any at-risk flag; a missing cell yields the defined sentinel `'N/A'`, which is
not NaN and therefore still renders (no failure). -/
theorem C6_thm (r : Row) :
    ((generate_full_dashboard_html r).team_html ≠ "" ↔
      getTeamCell r.predicted_label_name ≠ none) ∧
    (r.predicted_label_name = CellVal.missing →
      getTeamCell r.predicted_label_name = some "N/A" ∧
      (generate_full_dashboard_html r).team_html = teamSectionHtml "N/A") := by
  have hth : (generate_full_dashboard_html r).team_html = team_html_module r := rfl
  constructor
  · rw [hth]
    cases hc : r.predicted_label_name with
    | missing => simp [team_html_module, getTeamCell, hc, teamSectionHtml_ne]
    | nan => simp [team_html_module, getTeamCell, hc]
    | val s => simp [team_html_module, getTeamCell, hc, teamSectionHtml_ne]
  · intro h
    rw [hth]
    unfold team_html_module
    rw [h]
    exact ⟨rfl, rfl⟩

/-- C6, witness: a row whose team column is missing renders the `'N/A'`
sentinel panel rather than failing. -/
theorem C6_witness :
    getTeamCell missingTeamRow.predicted_label_name = some "N/A" ∧
    (generate_full_dashboard_html missingTeamRow).team_html = teamSectionHtml "N/A" :=
  (C6_thm missingTeamRow).2 rfl

/-- C7: the claim describes the intended triage list (lines 238, 252-262), but
the code never computes it: `np.where` returns a `numpy.ndarray` and `.str` is
a pandas-`Series`-only accessor, so line 252 raises AttributeError on every
successfully loaded snapshot — concretely on the one-row frame `[dogRow]`, and
on any row list, even an empty one — before `Primary_Concern` or `df_display`
exists; every successful load therefore ends in the crashed body, never in a
rendered triage table. -/
theorem C7_thm :
    triageBuild [dogRow] = Except.error ndarrayStrError ∧
    primaryConcernColumn [dogRow] = Except.error ndarrayStrError ∧
    (∀ rows : List Row, triageBuild rows = Except.error ndarrayStrError) ∧
    (∀ rows : List Row, ∀ sel : List String,
      appRender (Except.ok rows) sel =
        ⟨[], AppBody.crashed (summaryHistogramInput (filterByAnimalType sel rows))
          ndarrayStrError⟩) :=
  ⟨rfl, rfl, fun _ => rfl, fun _ _ => rfl⟩

/-- C8: every load attempt either hands the full snapshot to the rest of the
script (the later line-252 crash is downstream of the loader and is modelled,
not collapsed: a successful load ends in the crashed body) or fails, in which
case the loader catches the exception, the `st.error` text and the `st.warning`
text are emitted as visible messages and the page body is the empty/disabled
state — the failure path is a value, never an exception. -/
theorem C8_thm (sel : List String) :
    (∀ rows : List Row, load_data_from_s3 (Except.ok rows) = (some rows, [])) ∧
    (∀ e : String, load_data_from_s3 (Except.error e) =
      (none, ["Error loading data from S3: " ++ e])) ∧
    (∀ rows : List Row, appRender (Except.ok rows) sel =
      ⟨[], AppBody.crashed (summaryHistogramInput (filterByAnimalType sel rows))
        ndarrayStrError⟩) ∧
    (∀ e : String, (appRender (Except.error e) sel).body = AppBody.unavailable ∧
      (appRender (Except.error e) sel).messages =
        ["Error loading data from S3: " ++ e,
         "Data could not be loaded. Please check S3 configuration and credentials."]) ∧
    (∀ fetch : Except String (List Row),
      (∃ rows, fetch = Except.ok rows) ∨
      ((appRender fetch sel).body = AppBody.unavailable ∧
        (appRender fetch sel).messages ≠ [])) := by
  refine ⟨fun rows => rfl, fun e => rfl, fun rows => rfl, fun e => ⟨rfl, rfl⟩, fun fetch => ?_⟩
  cases fetch with
  | ok rows => exact Or.inl ⟨rows, rfl⟩
  | error e => exact Or.inr ⟨rfl, List.cons_ne_nil _ _⟩

/-- C8, witness: a concrete failed fetch renders the disabled state with the
two visible messages. -/
theorem C8_witness :
    (appRender (Except.error "timeout") []).body = AppBody.unavailable ∧
    (appRender (Except.error "timeout") []).messages =
      ["Error loading data from S3: timeout",
       "Data could not be loaded. Please check S3 configuration and credentials."] :=
  (C8_thm []).2.2.2.1 "timeout"

/-- C9: the source contains two distinct risk categorizers — the summary one
(`get_adoptability_category`: High ≤ 33, Medium ≤ 66, else Low) and the
detail-panel/table-coloring one (High < 25, Medium < 50, else Low, the latter
also driving `color_score`) — and they disagree on every score in [25, 33] and
every score in [50, 66], so they are not extensionally equal. -/
theorem C9_thm :
    (∀ s : ℚ, 25 ≤ s → s ≤ 33 → get_adoptability_category s ≠ detailRiskCategory s) ∧
    (∀ s : ℚ, 50 ≤ s → s ≤ 66 → get_adoptability_category s ≠ detailRiskCategory s) ∧
    (∃ s : ℚ, get_adoptability_category s ≠ detailRiskCategory s) ∧
    (∀ s : ℚ,
      (detailRiskCategory s = "High Risk" ↔
        color_score s = "background-color: #FF6B6B; color: white") ∧
      (detailRiskCategory s = "Medium Risk" ↔
        color_score s = "background-color: #FFD166")) := by
  have h1 : ∀ s : ℚ, 25 ≤ s → s ≤ 33 →
      get_adoptability_category s ≠ detailRiskCategory s := by
    intro s hl hu
    unfold get_adoptability_category detailRiskCategory
    rw [if_pos hu, if_neg (not_lt.mpr hl), if_pos (by linarith)]
    decide
  have h2 : ∀ s : ℚ, 50 ≤ s → s ≤ 66 →
      get_adoptability_category s ≠ detailRiskCategory s := by
    intro s hl hu
    unfold get_adoptability_category detailRiskCategory
    rw [if_neg (by intro h; linarith), if_pos hu,
      if_neg (by intro h; linarith), if_neg (not_lt.mpr hl)]
    decide
  refine ⟨h1, h2, ⟨30, h1 30 (by norm_num) (by norm_num)⟩, fun s => ?_⟩
  unfold detailRiskCategory color_score
  split_ifs <;> simp

/-- C9, witness: the two categorizers disagree at the concrete scores 30 and
60, with the interval hypotheses discharged. -/
theorem C9_witness :
    get_adoptability_category 30 ≠ detailRiskCategory 30 ∧
    get_adoptability_category 60 ≠ detailRiskCategory 60 :=
  ⟨C9_thm.1 30 (by norm_num) (by norm_num),
   C9_thm.2.1 60 (by norm_num) (by norm_num)⟩

/-- C10: an attribution entry whose feature name is valid but whose
`_Relative_Diff` key is missing is not skipped: the effect defaults to 0, the
direction resolves to "more" (0 is not < 0), and the rendered sentence ends
with " are 0% more likely to be adopted.". -/
theorem C10_thm (s : AttrSlot) (nm : String) (hn : s.name = some nm)
    (hne : nm ≠ "") (hmiss : s.relDiff = none) :
    (renderFactor s).isSome = true ∧
    slotRelDiff s = 0 ∧
    directionOf (slotRelDiff s) = "more" ∧
    statisticOf s nm =
      s.value ++ ((if nm = "Age" then " years" else "") ++
        " are 0% more likely to be adopted.") ∧
    strContains (statisticOf s nm) " are 0% more likely to be adopted." = true := by
  have hsd : slotRelDiff s = 0 := by
    unfold slotRelDiff
    rw [hmiss]
    rfl
  have hstat : statisticOf s nm =
      s.value ++ ((if nm = "Age" then " years" else "") ++
        " are 0% more likely to be adopted.") := by
    unfold statisticOf
    rw [hsd, magnitudeOf_zero, directionOf_nonneg 0 le_rfl]
    exact congrArg (fun t => s.value ++ ((if nm = "Age" then " years" else "") ++ t))
      (by decide)
  refine ⟨?_, hsd, by rw [hsd]; exact directionOf_nonneg 0 le_rfl, hstat, ?_⟩
  · rw [renderFactor_eq]
    simp [validName, hn, hne]
  · rw [hstat]
    apply strContains_append_right
    apply strContains_append_right
    decide

/-- C10, witness: the concrete slot `slotMissingDiff` (valid name "Has Name",
missing `_Relative_Diff`), with all hypotheses discharged. -/
theorem C10_witness :
    (renderFactor slotMissingDiff).isSome = true ∧
    statisticOf slotMissingDiff "Has Name" =
      "No" ++ ((if ("Has Name" : String) = "Age" then " years" else "") ++
        " are 0% more likely to be adopted.") :=
  ⟨(C10_thm slotMissingDiff "Has Name" rfl (by decide) rfl).1,
   (C10_thm slotMissingDiff "Has Name" rfl (by decide) rfl).2.2.2.1⟩

end PetAdoption
